import Mathlib

/-!
Formal model of the facescan-pro biometric pipeline.

Each definition is a shallow embedding of a function from the repository
sources (src/lib/advanced-face-detection.ts, src/lib/face-detection.ts,
src/pages/Scan.tsx, src/pages/Enroll.tsx and the enrollment component
bundled in src/pages/Admin.tsx).  JavaScript numbers are modelled as real
numbers; code that throws is modelled with Except; JavaScript division
whose result can be non-finite (NaN or an infinity) is modelled with
Option.
-/

namespace FaceScanPro

noncomputable section
open Classical

/-- Sum of pairwise products of two vectors.  Mirrors the
`dotProduct += a[i] * b[i]` loop of `cosineSimilarity` in
advanced-face-detection.ts (lines 287-291); the loop runs over the common
length. -/
def dotProduct : List ℝ → List ℝ → ℝ
  | a :: as, b :: bs => a * b + dotProduct as bs
  | _, _ => 0

/-- Sum of squares of a vector, mirroring the `magnitudeA += a[i] * a[i]`
accumulation in `cosineSimilarity`. -/
def sumSq : List ℝ → ℝ
  | [] => 0
  | a :: as => a * a + sumSq as

/-- Euclidean magnitude `Math.sqrt(sum of squares)` as in
advanced-face-detection.ts lines 293-294. -/
def magnitude (v : List ℝ) : ℝ := Real.sqrt (sumSq v)

/-- The numeric value produced by `cosineSimilarity` once the length check
has passed: 0 when either magnitude is 0, otherwise
`dotProduct / (magnitudeA * magnitudeB)` (advanced-face-detection.ts lines
296-298). -/
def cosineSimilarityValue (a b : List ℝ) : ℝ :=
  if magnitude a = 0 ∨ magnitude b = 0 then 0
  else dotProduct a b / (magnitude a * magnitude b)

/-- `cosineSimilarity` from advanced-face-detection.ts (lines 278-299):
throws on a length mismatch, otherwise returns the similarity value. -/
def cosineSimilarity (a b : List ℝ) : Except String ℝ :=
  if a.length ≠ b.length then Except.error ("Vectors must have same length")
  else Except.ok (cosineSimilarityValue a b)

/-- `cosineSimilarity` from face-detection.ts (lines 90-111).  The body is
identical to the advanced one apart from the message of the thrown error. -/
def cosineSimilarityBasic (a b : List ℝ) : Except String ℝ :=
  if a.length ≠ b.length then Except.error ("Embeddings must have same length")
  else Except.ok (cosineSimilarityValue a b)

lemma sumSq_nonneg (l : List ℝ) : 0 ≤ sumSq l := by
  induction l with
  | nil => simp [sumSq]
  | cons a t ih => simp only [sumSq]; nlinarith [mul_self_nonneg a]

lemma magnitude_nonneg (l : List ℝ) : 0 ≤ magnitude l := Real.sqrt_nonneg _

lemma magnitude_eq_zero_iff (l : List ℝ) : magnitude l = 0 ↔ sumSq l = 0 := by
  unfold magnitude
  rw [Real.sqrt_eq_zero']
  constructor
  · intro h; exact le_antisymm h (sumSq_nonneg l)
  · intro h; exact h.le

lemma dotProduct_self (l : List ℝ) : dotProduct l l = sumSq l := by
  induction l with
  | nil => simp [dotProduct, sumSq]
  | cons a t ih => simp [dotProduct, sumSq, ih]

lemma sumSq_map_neg (l : List ℝ) : sumSq (l.map (fun x => -x)) = sumSq l := by
  induction l with
  | nil => simp [sumSq]
  | cons a t ih => simp [sumSq, ih]

lemma dotProduct_map_neg (l : List ℝ) :
    dotProduct l (l.map (fun x => -x)) = -sumSq l := by
  induction l with
  | nil => simp [dotProduct, sumSq]
  | cons a t ih => simp [dotProduct, sumSq, ih]; ring

lemma magnitude_map_neg (l : List ℝ) : magnitude (l.map (fun x => -x)) = magnitude l := by
  unfold magnitude; rw [sumSq_map_neg]

/-- C1: for equal-length vectors `cosineSimilarity` returns
`dot(a,b) / (|a| * |b|)` with the value 0 whenever either magnitude is 0;
consequently `cosine(v, v) = 1` and `cosine(v, -v) = -1` for any vector of
nonzero magnitude, and `cosine(v, w) = 0` for orthogonal `v`, `w`; the
basic library version computes the same value. -/
theorem cosineSimilarity_spec (v w : List ℝ) (hlen : v.length = w.length) :
    cosineSimilarity v w =
      Except.ok (if magnitude v = 0 ∨ magnitude w = 0 then 0
        else dotProduct v w / (magnitude v * magnitude w))
    ∧ (magnitude v ≠ 0 → cosineSimilarity v v = Except.ok 1)
    ∧ (magnitude v ≠ 0 → cosineSimilarity v (v.map (fun x => -x)) = Except.ok (-1))
    ∧ (dotProduct v w = 0 → cosineSimilarity v w = Except.ok 0)
    ∧ cosineSimilarityBasic v w = cosineSimilarity v w := by
  have hself : ∀ u : List ℝ, magnitude u ≠ 0 →
      cosineSimilarityValue u u = 1 := by
    intro u hu
    have hs : sumSq u ≠ 0 := fun h => hu ((magnitude_eq_zero_iff u).mpr h)
    unfold cosineSimilarityValue
    rw [if_neg (by tauto)]
    rw [dotProduct_self]
    have : magnitude u * magnitude u = sumSq u := Real.mul_self_sqrt (sumSq_nonneg u)
    rw [this, div_self hs]
  refine ⟨?_, ?_, ?_, ?_, ?_⟩
  · simp [cosineSimilarity, hlen, cosineSimilarityValue]
  · intro hv
    have h1 : cosineSimilarity v v = Except.ok (cosineSimilarityValue v v) := by
      simp [cosineSimilarity]
    rw [h1, hself v hv]
  · intro hv
    have hmneg : magnitude (v.map (fun x => -x)) = magnitude v := magnitude_map_neg v
    have hs : sumSq v ≠ 0 := fun h => hv ((magnitude_eq_zero_iff v).mpr h)
    have h1 : cosineSimilarity v (v.map (fun x => -x)) =
        Except.ok (cosineSimilarityValue v (v.map (fun x => -x))) := by
      simp [cosineSimilarity]
    rw [h1]
    have h2 : cosineSimilarityValue v (v.map (fun x => -x)) = -1 := by
      unfold cosineSimilarityValue
      rw [if_neg (by rw [hmneg]; tauto)]
      rw [dotProduct_map_neg, hmneg]
      have hmm : magnitude v * magnitude v = sumSq v := Real.mul_self_sqrt (sumSq_nonneg v)
      rw [hmm, neg_div, div_self hs]
    rw [h2]
  · intro hd
    have : cosineSimilarityValue v w = 0 := by
      unfold cosineSimilarityValue
      split
      · rfl
      · rw [hd, zero_div]
    simp [cosineSimilarity, hlen, this]
  · simp [cosineSimilarity, cosineSimilarityBasic, hlen]

/-- Witness for C1 at concrete one-dimensional vectors. -/
theorem cosineSimilarity_spec_witness :
    cosineSimilarity [(1 : ℝ)] [(1 : ℝ)] = Except.ok 1
    ∧ cosineSimilarity [(1 : ℝ)] [(-1 : ℝ)] = Except.ok (-1)
    ∧ cosineSimilarity [(1 : ℝ)] [(0 : ℝ)] = Except.ok 0 := by
  have hmag : magnitude [(1 : ℝ)] ≠ 0 := by
    simp [magnitude, sumSq, Real.sqrt_one]
  have h := cosineSimilarity_spec [(1 : ℝ)] [(0 : ℝ)] rfl
  refine ⟨h.2.1 hmag, ?_, h.2.2.2.1 (by norm_num [dotProduct])⟩
  have h3 := h.2.2.1 hmag
  simpa using h3

/-- C10: comparing vectors of unequal length fails fast with the
dimension-mismatch error in both libraries; no numeric score is returned. -/
theorem cosineSimilarity_dimension_mismatch (a b : List ℝ)
    (h : a.length ≠ b.length) :
    cosineSimilarity a b = Except.error ("Vectors must have same length")
    ∧ cosineSimilarityBasic a b = Except.error ("Embeddings must have same length") := by
  constructor
  · simp [cosineSimilarity, h]
  · simp [cosineSimilarityBasic, h]

/-- Witness for C10 at concrete vectors of length 1 and 0. -/
theorem cosineSimilarity_dimension_mismatch_witness :
    cosineSimilarity [(1 : ℝ)] [] = Except.error ("Vectors must have same length")
    ∧ cosineSimilarityBasic [(1 : ℝ)] [] = Except.error ("Embeddings must have same length") :=
  cosineSimilarity_dimension_mismatch [(1 : ℝ)] [] (by simp)

lemma dotProduct_sq_le (a : List ℝ) : ∀ b : List ℝ,
    (dotProduct a b) ^ 2 ≤ sumSq a * sumSq b := by
  induction a with
  | nil => intro b; simp [dotProduct, sumSq]
  | cons x xs ih =>
    intro b
    cases b with
    | nil => simp [dotProduct, sumSq]
    | cons y ys =>
      have h := ih ys
      have hp := sumSq_nonneg xs
      have hq := sumSq_nonneg ys
      simp only [dotProduct, sumSq]
      rcases eq_or_lt_of_le hq with hq0 | hqpos
      · have hd2 : (dotProduct xs ys) ^ 2 = 0 := by nlinarith [sq_nonneg (dotProduct xs ys)]
        have hd : dotProduct xs ys = 0 := by
          have := sq_eq_zero_iff.mp hd2
          exact this
        rw [hd, ← hq0]
        nlinarith [mul_nonneg hp (mul_self_nonneg y)]
      · have hint1 : (0:ℝ) ≤ (x * sumSq ys - y * dotProduct xs ys) ^ 2 := sq_nonneg _
        have hint2 : (0:ℝ) ≤ (y * y + sumSq ys) * (sumSq xs * sumSq ys - (dotProduct xs ys) ^ 2) := by
          apply mul_nonneg
          · nlinarith [mul_self_nonneg y]
          · linarith
        nlinarith [hint1, hint2, hqpos]

lemma abs_dotProduct_le (a b : List ℝ) :
    |dotProduct a b| ≤ magnitude a * magnitude b := by
  have h := dotProduct_sq_le a b
  have h1 : |dotProduct a b| = Real.sqrt ((dotProduct a b) ^ 2) :=
    (Real.sqrt_sq_eq_abs _).symm
  rw [h1, magnitude, magnitude, ← Real.sqrt_mul (sumSq_nonneg a)]
  exact Real.sqrt_le_sqrt h

lemma cosineSimilarityValue_mem (a b : List ℝ) :
    -1 ≤ cosineSimilarityValue a b ∧ cosineSimilarityValue a b ≤ 1 := by
  unfold cosineSimilarityValue
  split
  · norm_num
  · rename_i hne
    push_neg at hne
    have ha : 0 < magnitude a := lt_of_le_of_ne (magnitude_nonneg a) (Ne.symm hne.1)
    have hb : 0 < magnitude b := lt_of_le_of_ne (magnitude_nonneg b) (Ne.symm hne.2)
    have hab : 0 < magnitude a * magnitude b := mul_pos ha hb
    have habs : |dotProduct a b / (magnitude a * magnitude b)| ≤ 1 := by
      rw [abs_div, abs_of_pos hab, div_le_one hab]
      exact abs_dotProduct_le a b
    exact abs_le.mp habs

/-- A gallery row as fetched in Scan.tsx (`user_id, embedding, profiles`). -/
structure StoredEmbedding where
  user_id : String
  full_name : Option String
  embedding : List ℝ

/-- The mutable `bestMatch` accumulator of `performScan` in Scan.tsx. -/
structure BestMatch where
  userId : String
  userName : String
  similarity : ℝ

/-- Initial accumulator: empty identity and name, similarity 0
(Scan.tsx lines 131-135). -/
def initialBestMatch : BestMatch := { userId := "", userName := "", similarity := 0 }

/-- One iteration of the `for (const stored of allEmbeddings)` loop in
`performScan` (Scan.tsx lines 137-147): computes the cosine similarity
(which can throw) and keeps the stored entry iff it strictly improves the
running best. -/
def matchStep (live : List ℝ) (best : BestMatch) (stored : StoredEmbedding) :
    Except String BestMatch :=
  (cosineSimilarity live stored.embedding).map (fun similarity =>
    if best.similarity < similarity then
      { userId := stored.user_id, userName := stored.full_name.getD ("Unknown"),
        similarity := similarity }
    else best)

/-- The whole comparison loop of `performScan`. -/
def findBestMatch (live : List ℝ) (gallery : List StoredEmbedding) :
    Except String BestMatch :=
  gallery.foldlM (matchStep live) initialBestMatch

/-- Pure value of one loop iteration, used when no dimension mismatch can
occur. -/
def matchStepValue (live : List ℝ) (best : BestMatch) (stored : StoredEmbedding) :
    BestMatch :=
  if best.similarity < cosineSimilarityValue live stored.embedding then
    { userId := stored.user_id, userName := stored.full_name.getD ("Unknown"),
      similarity := cosineSimilarityValue live stored.embedding }
  else best

/-- Pure value of the comparison loop. -/
def findBestMatchValue (live : List ℝ) (gallery : List StoredEmbedding) : BestMatch :=
  gallery.foldl (matchStepValue live) initialBestMatch

/-- The similarity threshold hard-coded in the advanced Scan page. -/
def SIMILARITY_THRESHOLD : ℝ := 0.65

/-- The row written to `recognition_logs` (Scan.tsx lines 152-158). -/
structure RecognitionLogEntry where
  user_id : Option String
  attempted_embedding : List ℝ
  similarity_score : ℝ
  success : Bool
  device_info : String

/-- The `matchResult` state written by `performScan`. -/
structure MatchResult where
  matched : Bool
  confidence : ℝ
  userName : String
  userId : String

/-- The decision part of `performScan` (Scan.tsx lines 131-184): runs the
comparison loop, writes the audit log row, and builds the match result;
`success = bestMatch.similarity >= threshold`. -/
def performScan (threshold : ℝ) (live : List ℝ) (gallery : List StoredEmbedding)
    (device : String) : Except String (RecognitionLogEntry × MatchResult) :=
  (findBestMatch live gallery).map (fun best =>
    let success := decide (threshold ≤ best.similarity)
    ({ user_id := if success then some best.userId else none,
       attempted_embedding := live,
       similarity_score := best.similarity,
       success := success,
       device_info := device },
     if success then
       { matched := true, confidence := best.similarity,
         userName := best.userName, userId := best.userId }
     else
       { matched := false, confidence := best.similarity,
         userName := "", userId := "" }))

lemma foldlM_matchStep_ok (live : List ℝ) :
    ∀ gallery : List StoredEmbedding,
      (∀ e ∈ gallery, e.embedding.length = live.length) →
      ∀ acc : BestMatch,
        gallery.foldlM (matchStep live) acc =
          Except.ok (gallery.foldl (matchStepValue live) acc) := by
  intro gallery
  induction gallery with
  | nil => intro _ acc; rfl
  | cons e t ih =>
    intro hlen acc
    have he : live.length = e.embedding.length := (hlen e (by simp)).symm
    have hstep : matchStep live acc e = Except.ok (matchStepValue live acc e) := by
      unfold matchStep matchStepValue
      simp [cosineSimilarity, he, Except.map]
    rw [List.foldlM_cons, hstep, List.foldl_cons]
    exact ih (fun x hx => hlen x (List.mem_cons_of_mem _ hx)) (matchStepValue live acc e)

lemma foldl_matchStep_sim_le (live : List ℝ) :
    ∀ (g : List StoredEmbedding) (acc : BestMatch),
      acc.similarity ≤ (g.foldl (matchStepValue live) acc).similarity ∧
      ∀ e ∈ g, cosineSimilarityValue live e.embedding ≤
        (g.foldl (matchStepValue live) acc).similarity := by
  intro g
  induction g with
  | nil => intro acc; exact ⟨le_refl _, by simp⟩
  | cons e t ih =>
    intro acc
    simp only [List.foldl_cons]
    have hstep : acc.similarity ≤ (matchStepValue live acc e).similarity ∧
        cosineSimilarityValue live e.embedding ≤ (matchStepValue live acc e).similarity := by
      unfold matchStepValue
      split
      · rename_i hlt; exact ⟨le_of_lt hlt, le_refl _⟩
      · rename_i hge; exact ⟨le_refl _, not_lt.mp hge⟩
    obtain ⟨h1, h2⟩ := ih (matchStepValue live acc e)
    refine ⟨le_trans hstep.1 h1, ?_⟩
    intro x hx
    rcases List.mem_cons.mp hx with rfl | hx'
    · exact le_trans hstep.2 h1
    · exact h2 x hx'

lemma foldl_matchStep_stable (live : List ℝ) :
    ∀ (g : List StoredEmbedding) (acc : BestMatch),
      (∀ e ∈ g, cosineSimilarityValue live e.embedding ≤ acc.similarity) →
      g.foldl (matchStepValue live) acc = acc := by
  intro g
  induction g with
  | nil => intro acc _; rfl
  | cons e t ih =>
    intro acc h
    simp only [List.foldl_cons]
    have he : cosineSimilarityValue live e.embedding ≤ acc.similarity := h e (by simp)
    have hstep : matchStepValue live acc e = acc := by
      unfold matchStepValue; rw [if_neg (not_lt.mpr he)]
    rw [hstep]
    exact ih acc (fun x hx => h x (by simp [hx]))

lemma foldl_matchStep_provenance (live : List ℝ) :
    ∀ (g : List StoredEmbedding) (acc : BestMatch),
      (g.foldl (matchStepValue live) acc = acc ∧
        ∀ e ∈ g, cosineSimilarityValue live e.embedding ≤ acc.similarity)
      ∨ (∃ pre entry post, g = pre ++ entry :: post ∧
          g.foldl (matchStepValue live) acc =
            { userId := entry.user_id, userName := entry.full_name.getD ("Unknown"),
              similarity := cosineSimilarityValue live entry.embedding } ∧
          acc.similarity < cosineSimilarityValue live entry.embedding ∧
          (∀ x ∈ pre, cosineSimilarityValue live x.embedding <
            cosineSimilarityValue live entry.embedding) ∧
          (∀ x ∈ post, cosineSimilarityValue live x.embedding ≤
            cosineSimilarityValue live entry.embedding)) := by
  intro g
  induction g with
  | nil => intro acc; left; exact ⟨rfl, by simp⟩
  | cons e t ih =>
    intro acc
    simp only [List.foldl_cons]
    by_cases h : acc.similarity < cosineSimilarityValue live e.embedding
    · have hstep : matchStepValue live acc e =
          { userId := e.user_id, userName := e.full_name.getD ("Unknown"),
            similarity := cosineSimilarityValue live e.embedding } := by
        unfold matchStepValue; rw [if_pos h]
      have hsim : (matchStepValue live acc e).similarity =
          cosineSimilarityValue live e.embedding := by rw [hstep]
      rcases ih (matchStepValue live acc e) with
        ⟨hf, hall⟩ | ⟨pre', entry, post', ht, hf, hgt, hpre, hpost⟩
      · right
        refine ⟨[], e, t, by simp, by rw [hf, hstep], h, by simp, ?_⟩
        intro x hx
        have := hall x hx
        rw [hsim] at this
        exact this
      · right
        have hgt' : cosineSimilarityValue live e.embedding <
            cosineSimilarityValue live entry.embedding := by
          rw [hsim] at hgt; exact hgt
        refine ⟨e :: pre', entry, post', by simp [ht], hf, lt_trans h hgt', ?_, hpost⟩
        intro x hx
        rcases List.mem_cons.mp hx with rfl | hx'
        · exact hgt'
        · exact hpre x hx'
    · have hstep : matchStepValue live acc e = acc := by
        unfold matchStepValue; rw [if_neg h]
      rw [hstep]
      rcases ih acc with ⟨hf, hall⟩ | ⟨pre', entry, post', ht, hf, hgt, hpre, hpost⟩
      · left
        refine ⟨hf, ?_⟩
        intro x hx
        rcases List.mem_cons.mp hx with rfl | hx'
        · exact not_lt.mp h
        · exact hall x hx'
      · right
        refine ⟨e :: pre', entry, post', by simp [ht], hf, hgt, ?_, hpost⟩
        intro x hx
        rcases List.mem_cons.mp hx with rfl | hx'
        · exact lt_of_le_of_lt (not_lt.mp h) hgt
        · exact hpre x hx'

lemma magnitude_pair_10 : magnitude [(1 : ℝ), 0] = 1 := by
  simp [magnitude, sumSq]

lemma magnitude_pair_01 : magnitude [(0 : ℝ), 1] = 1 := by
  simp [magnitude, sumSq]

lemma magnitude_pair_neg10 : magnitude [(-1 : ℝ), 0] = 1 := by
  simp [magnitude, sumSq]

lemma cosValue_10_10 : cosineSimilarityValue [(1 : ℝ), 0] [(1 : ℝ), 0] = 1 := by
  unfold cosineSimilarityValue
  rw [magnitude_pair_10]
  norm_num [dotProduct]

lemma cosValue_10_01 : cosineSimilarityValue [(1 : ℝ), 0] [(0 : ℝ), 1] = 0 := by
  unfold cosineSimilarityValue
  rw [magnitude_pair_10, magnitude_pair_01]
  norm_num [dotProduct]

lemma cosValue_10_neg10 : cosineSimilarityValue [(1 : ℝ), 0] [(-1 : ℝ), 0] = -1 := by
  unfold cosineSimilarityValue
  rw [magnitude_pair_10, magnitude_pair_neg10]
  norm_num [dotProduct]

/-- C2: for every scan the match decision is `matched = (bestScore >= threshold)`,
with `>=` and not strict `>`; the logged success flag is the same test, and at a
concrete boundary input whose best score equals the threshold the scan matches. -/
theorem performScan_threshold_ge (threshold : ℝ) (live : List ℝ)
    (gallery : List StoredEmbedding) (device : String) :
    (performScan threshold live gallery device).map (fun r => r.2.matched)
      = (findBestMatch live gallery).map (fun b => decide (threshold ≤ b.similarity))
    ∧ (performScan threshold live gallery device).map (fun r => r.1.success)
      = (findBestMatch live gallery).map (fun b => decide (threshold ≤ b.similarity))
    ∧ (performScan 1 [(1 : ℝ), 0]
        [{ user_id := ("u"), full_name := some ("A"), embedding := [(1 : ℝ), 0] }]
        ("d")).map (fun r => r.2.matched) = Except.ok true := by
  have hmain : ∀ (θ : ℝ) (l : List ℝ) (g : List StoredEmbedding) (d : String),
      (performScan θ l g d).map (fun r => r.2.matched)
        = (findBestMatch l g).map (fun b => decide (θ ≤ b.similarity))
      ∧ (performScan θ l g d).map (fun r => r.1.success)
        = (findBestMatch l g).map (fun b => decide (θ ≤ b.similarity)) := by
    intro θ l g d
    cases hb : findBestMatch l g with
    | error msg => simp [performScan, hb, Except.map]
    | ok b =>
      by_cases hθ : θ ≤ b.similarity
      · simp [performScan, hb, Except.map, hθ]
      · simp [performScan, hb, Except.map, hθ]
  refine ⟨(hmain threshold live gallery device).1, (hmain threshold live gallery device).2, ?_⟩
  have hfb : findBestMatch [(1 : ℝ), 0]
      [{ user_id := ("u"), full_name := some ("A"), embedding := [(1 : ℝ), 0] }]
      = Except.ok { userId := ("u"), userName := ("A"), similarity := 1 } := by
    unfold findBestMatch
    rw [List.foldlM_cons]
    have hstep : matchStep [(1 : ℝ), 0] initialBestMatch
        { user_id := ("u"), full_name := some ("A"), embedding := [(1 : ℝ), 0] }
        = Except.ok { userId := ("u"), userName := ("A"), similarity := 1 } := by
      unfold matchStep
      have hc : cosineSimilarity [(1 : ℝ), 0] [(1 : ℝ), 0] = Except.ok 1 := by
        simp [cosineSimilarity, cosValue_10_10]
      rw [hc]
      simp [Except.map, initialBestMatch]
    rw [hstep]
    rfl
  rw [(hmain 1 [(1 : ℝ), 0] _ ("d")).1, hfb]
  simp [Except.map]

/-- C3: matching against an empty gallery returns no error, a result with
`matched = false` and score 0, and an audit log row with `success = false`
and no identity. -/
theorem performScan_empty_gallery (threshold : ℝ) (live : List ℝ) (device : String)
    (h : 0 < threshold) :
    performScan threshold live [] device =
      Except.ok ({ user_id := none, attempted_embedding := live, similarity_score := 0,
                   success := false, device_info := device },
                 { matched := false, confidence := 0, userName := "", userId := "" }) := by
  have hbest : findBestMatch live [] = Except.ok initialBestMatch := rfl
  have hns : ¬ (threshold ≤ initialBestMatch.similarity) := by
    simp only [initialBestMatch]
    exact not_le.mpr h
  simp [performScan, hbest, Except.map, initialBestMatch]
  exact h

/-- Witness for C3 with the production threshold 0.65 and a concrete
live embedding. -/
theorem performScan_empty_gallery_witness :
    performScan 0.65 [(1 : ℝ)] [] ("dev") =
      Except.ok ({ user_id := none, attempted_embedding := [(1 : ℝ)], similarity_score := 0,
                   success := false, device_info := ("dev") },
                 { matched := false, confidence := 0, userName := "", userId := "" }) :=
  performScan_empty_gallery 0.65 [(1 : ℝ)] ("dev") (by norm_num)

/-- Counterexample for C4 as frozen: a gallery whose single entry has cosine
similarity -1 to the live embedding.  The claim says the scan returns that
entry together with its (maximal) similarity -1, but the code starts the best
score at 0 and only replaces it on strict improvement, so it returns the
empty identity with score 0. -/
theorem findBestMatch_negative_similarity_cex :
    findBestMatch [(1 : ℝ), 0]
      [{ user_id := ("u1"), full_name := some ("A"), embedding := [(-1 : ℝ), 0] }]
      = Except.ok initialBestMatch
    ∧ cosineSimilarity [(1 : ℝ), 0] [(-1 : ℝ), 0] = Except.ok (-1)
    ∧ initialBestMatch.userId = ("") ∧ initialBestMatch.similarity = 0 := by
  have hc : cosineSimilarity [(1 : ℝ), 0] [(-1 : ℝ), 0] = Except.ok (-1) := by
    simp [cosineSimilarity, cosValue_10_neg10]
  refine ⟨?_, hc, rfl, rfl⟩
  unfold findBestMatch
  rw [List.foldlM_cons]
  have hstep : matchStep [(1 : ℝ), 0] initialBestMatch
      { user_id := ("u1"), full_name := some ("A"), embedding := [(-1 : ℝ), 0] }
      = Except.ok initialBestMatch := by
    unfold matchStep
    rw [hc]
    have : ¬ (initialBestMatch.similarity < (-1 : ℝ)) := by
      simp [initialBestMatch]
    simp [Except.map, this]
  rw [hstep]
  rfl

/-- C4 (amended): the scan loop is a linear fold whose reported score is the
maximum of 0 and the gallery similarities, always inside [-1, 1].  An entry is
only ever selected when its similarity strictly exceeds 0; when no entry has a
positive similarity the loop keeps the empty identity with score 0; otherwise
the returned identity is the first-seen entry attaining the maximal
similarity (so ties keep the first-seen entry). -/
theorem findBestMatch_amended (live : List ℝ) (gallery : List StoredEmbedding)
    (hlen : ∀ e ∈ gallery, e.embedding.length = live.length) :
    findBestMatch live gallery = Except.ok (findBestMatchValue live gallery)
    ∧ 0 ≤ (findBestMatchValue live gallery).similarity
    ∧ (findBestMatchValue live gallery).similarity ≤ 1
    ∧ (∀ e ∈ gallery,
        cosineSimilarityValue live e.embedding ≤ (findBestMatchValue live gallery).similarity)
    ∧ ((∀ e ∈ gallery, cosineSimilarityValue live e.embedding ≤ 0) →
        findBestMatchValue live gallery = initialBestMatch)
    ∧ (0 < (findBestMatchValue live gallery).similarity →
        ∃ pre entry post, gallery = pre ++ entry :: post ∧
          (findBestMatchValue live gallery).userId = entry.user_id ∧
          (findBestMatchValue live gallery).similarity =
            cosineSimilarityValue live entry.embedding ∧
          ∀ x ∈ pre, cosineSimilarityValue live x.embedding <
            (findBestMatchValue live gallery).similarity) := by
  have hle := foldl_matchStep_sim_le live gallery initialBestMatch
  have hprov := foldl_matchStep_provenance live gallery initialBestMatch
  have hinit : initialBestMatch.similarity = 0 := rfl
  refine ⟨?_, ?_, ?_, ?_, ?_, ?_⟩
  · exact foldlM_matchStep_ok live gallery hlen initialBestMatch
  · have := hle.1
    rw [hinit] at this
    exact this
  · rcases hprov with ⟨hf, _⟩ | ⟨pre, entry, post, ht, hf, _, _, _⟩
    · unfold findBestMatchValue
      rw [hf, hinit]
      norm_num
    · unfold findBestMatchValue
      rw [hf]
      exact (cosineSimilarityValue_mem live entry.embedding).2
  · exact hle.2
  · intro hall
    exact foldl_matchStep_stable live gallery initialBestMatch
      (fun e he => le_trans (hall e he) (by rw [hinit]))
  · intro hpos
    rcases hprov with ⟨hf, _⟩ | ⟨pre, entry, post, ht, hf, _, hpre, _⟩
    · exfalso
      unfold findBestMatchValue at hpos
      rw [hf, hinit] at hpos
      exact lt_irrefl 0 hpos
    · refine ⟨pre, entry, post, ht, ?_, ?_, ?_⟩
      · unfold findBestMatchValue
        rw [hf]
      · unfold findBestMatchValue
        rw [hf]
      · intro x hx
        unfold findBestMatchValue
        rw [hf]
        exact hpre x hx

/-- Witness for C4 (amended) on a two-entry gallery where the second entry
attains the maximal similarity 1. -/
theorem findBestMatch_amended_witness :
    findBestMatch [(1 : ℝ), 0]
      [{ user_id := ("a"), full_name := some ("A"), embedding := [(0 : ℝ), 1] },
       { user_id := ("b"), full_name := some ("B"), embedding := [(1 : ℝ), 0] }]
      = Except.ok { userId := ("b"), userName := ("B"), similarity := 1 } := by
  have h := findBestMatch_amended [(1 : ℝ), 0]
    [{ user_id := ("a"), full_name := some ("A"), embedding := [(0 : ℝ), 1] },
     { user_id := ("b"), full_name := some ("B"), embedding := [(1 : ℝ), 0] }]
    (by intro e he
        simp only [List.mem_cons, List.not_mem_nil, or_false] at he
        rcases he with rfl | rfl <;> rfl)
  rw [h.1]
  unfold findBestMatchValue
  rw [List.foldl_cons]
  have h1 : matchStepValue [(1 : ℝ), 0] initialBestMatch
      { user_id := ("a"), full_name := some ("A"), embedding := [(0 : ℝ), 1] }
      = initialBestMatch := by
    unfold matchStepValue
    rw [if_neg]
    rw [cosValue_10_01]
    simp [initialBestMatch]
  rw [h1, List.foldl_cons]
  have h2 : matchStepValue [(1 : ℝ), 0] initialBestMatch
      { user_id := ("b"), full_name := some ("B"), embedding := [(1 : ℝ), 0] }
      = { userId := ("b"), userName := ("B"), similarity := 1 } := by
    unfold matchStepValue
    rw [cosValue_10_10, if_pos]
    · rfl
    · rw [show initialBestMatch.similarity = 0 from rfl]
      norm_num
  rw [h2]
  rfl

/-- Face bounding box (`topLeft`, `bottomRight`) as in
advanced-face-detection.ts lines 46-49. -/
structure BoundingBox where
  topLeft : ℝ × ℝ
  bottomRight : ℝ × ℝ

/-- `FaceDetectionResult` from advanced-face-detection.ts lines 42-51. -/
structure FaceDetectionResult where
  detected : Bool
  embedding : List ℝ
  landmarks : List (ℝ × ℝ)
  boundingBox : Option BoundingBox
  confidence : ℝ

/-- Euclidean distance between two 2-D points, as computed with
`Math.sqrt(dx*dx + dy*dy)` throughout the liveness code. -/
def dist2 (p q : ℝ × ℝ) : ℝ := Real.sqrt ((p.1 - q.1) ^ 2 + (p.2 - q.2) ^ 2)

/-- `calculateEyeAspectRatio` (advanced-face-detection.ts lines 392-409):
`(vertical1 + vertical2) / (2 * horizontal)` over the eye subset, returning
1 when fewer than 6 points are available. -/
def calculateEyeAspect (eyePoints : List (ℝ × ℝ)) : ℝ :=
  if eyePoints.length < 6 then 1
  else
    (dist2 (eyePoints.getD 1 (0, 0)) (eyePoints.getD 5 (0, 0)) +
     dist2 (eyePoints.getD 2 (0, 0)) (eyePoints.getD 4 (0, 0))) /
    (2 * dist2 (eyePoints.getD 0 (0, 0)) (eyePoints.getD 3 (0, 0)))

/-- `calculateTextureVariance` (lines 411-444): variance of the grayscale
`(r+g+b)/3` values of the face crop, computed as `sumSq/count - mean^2`.
The crop pixels the function reads from the video are passed explicitly. -/
def calculateTextureVariance (pixels : List (ℝ × ℝ × ℝ)) : ℝ :=
  ((pixels.map (fun p => (p.1 + p.2.1 + p.2.2) / 3)).map (fun g => g * g)).sum /
      (pixels.length : ℝ) -
    ((pixels.map (fun p => (p.1 + p.2.1 + p.2.2) / 3)).sum / (pixels.length : ℝ)) *
    ((pixels.map (fun p => (p.1 + p.2.1 + p.2.2) / 3)).sum / (pixels.length : ℝ))

/-- `estimateDepth` (lines 446-466): point-wise distance sum between the
contour slice 0-17 and the mirrored slice 127-144, thresholded at 50;
false when fewer than 468 landmarks are present. -/
def estimateDepth (landmarks : List (ℝ × ℝ)) : Bool :=
  if landmarks.length < 468 then false
  else
    decide (50 < ((List.range (min (landmarks.take 17).length
        ((landmarks.drop 127).take 17).length)).map (fun i =>
      dist2 ((landmarks.take 17).getD i (0, 0))
        (((landmarks.drop 127).take 17).getD i (0, 0)))).sum)

/-- The module-level mutable liveness state of advanced-face-detection.ts
(lines 313-315): `previousFace`, `blinkHistory`, `movementHistory`. -/
structure LivenessState where
  previousFace : Option FaceDetectionResult
  blinkHistory : List Bool
  movementHistory : List ℝ

/-- `resetLivenessTracking` (lines 468-472). -/
def resetLivenessTracking : LivenessState :=
  { previousFace := none, blinkHistory := [], movementHistory := [] }

/-- The boolean pushed into the blink history: either eye aspect value below
0.2 (line 337), over the landmark slices 33-42 and 263-272. -/
def blinkSample (f : FaceDetectionResult) : Bool :=
  decide (calculateEyeAspect ((f.landmarks.drop 33).take 9) < 0.2 ∨
          calculateEyeAspect ((f.landmarks.drop 263).take 9) < 0.2)

/-- Blink history after one call of `checkAdvancedLiveness` (lines 329-341):
push when more than 468 landmarks are present, then shift the oldest entry
when the queue exceeds 10. -/
def blinkUpdate (st : LivenessState) (f : FaceDetectionResult) : List Bool :=
  if 468 < f.landmarks.length then
    if 10 < (st.blinkHistory ++ [blinkSample f]).length then
      (st.blinkHistory ++ [blinkSample f]).tail
    else st.blinkHistory ++ [blinkSample f]
  else st.blinkHistory

/-- `checks.blinkDetected`: at least 2 true entries in the updated history
(line 340); stays false when the landmark branch is not taken. -/
def blinkFlagOf (st : LivenessState) (f : FaceDetectionResult) : Bool :=
  if 468 < f.landmarks.length then
    decide (2 ≤ ((blinkUpdate st f).filter id).length)
  else false

/-- Displacement between the previous and current bounding-box centers
(lines 344-357). -/
def movementDist (pb cb : BoundingBox) : ℝ :=
  Real.sqrt (((cb.topLeft.1 + cb.bottomRight.1) / 2 -
      (pb.topLeft.1 + pb.bottomRight.1) / 2) ^ 2 +
    ((cb.topLeft.2 + cb.bottomRight.2) / 2 -
      (pb.topLeft.2 + pb.bottomRight.2) / 2) ^ 2)

/-- Movement history after one call (lines 359-360): push when a previous
face and both bounding boxes exist, then shift beyond capacity 20. -/
def movementUpdate (st : LivenessState) (f : FaceDetectionResult) : List ℝ :=
  match st.previousFace with
  | some prev =>
    match prev.boundingBox, f.boundingBox with
    | some pb, some cb =>
      if 20 < (st.movementHistory ++ [movementDist pb cb]).length then
        (st.movementHistory ++ [movementDist pb cb]).tail
      else st.movementHistory ++ [movementDist pb cb]
    | _, _ => st.movementHistory
  | none => st.movementHistory

/-- `checks.headMovement`: rolling average of the updated history strictly
between 3 and 50 (lines 362-363); false when the branch is not taken. -/
def movementFlagOf (st : LivenessState) (f : FaceDetectionResult) : Bool :=
  match st.previousFace with
  | some prev =>
    match prev.boundingBox, f.boundingBox with
    | some _, some _ =>
      decide (3 < (movementUpdate st f).sum / ((movementUpdate st f).length : ℝ) ∧
        (movementUpdate st f).sum / ((movementUpdate st f).length : ℝ) < 50)
    | _, _ => false
  | none => false

/-- `checks.textureVariance`: variance above 100 (lines 367-370), only
evaluated when a bounding box is present. -/
def textureFlagOf (f : FaceDetectionResult) (pixels : List (ℝ × ℝ × ℝ)) : Bool :=
  match f.boundingBox with
  | some _ => decide (100 < calculateTextureVariance pixels)
  | none => false

/-- The four boolean checks of `LivenessResult` (lines 302-311). -/
structure LivenessChecks where
  blinkDetected : Bool
  headMovement : Bool
  textureVariance : Bool
  depthEstimate : Bool

/-- `LivenessResult` (lines 302-311). -/
structure LivenessResult where
  score : ℝ
  checks : LivenessChecks
  isLive : Bool

/-- The weighted score of lines 378-383. -/
def livenessScore (checks : LivenessChecks) : ℝ :=
  (if checks.blinkDetected then (0.3 : ℝ) else 0) +
  (if checks.headMovement then (0.3 : ℝ) else 0) +
  (if checks.textureVariance then (0.2 : ℝ) else 0) +
  (if checks.depthEstimate then (0.2 : ℝ) else 0)

/-- The returned record `{ score, checks, isLive: score >= 0.5 }`
(lines 385-389). -/
def mkLivenessResult (checks : LivenessChecks) : LivenessResult :=
  { score := livenessScore checks, checks := checks,
    isLive := decide ((0.5 : ℝ) ≤ livenessScore checks) }

/-- `checkAdvancedLiveness` (lines 317-390): computes the four checks from
the state and the current face, and returns the result together with the
updated module state (`previousFace = currentFace`, updated histories). -/
def checkAdvancedLiveness (st : LivenessState) (currentFace : FaceDetectionResult)
    (cropPixels : List (ℝ × ℝ × ℝ)) : LivenessResult × LivenessState :=
  (mkLivenessResult
    { blinkDetected := blinkFlagOf st currentFace,
      headMovement := movementFlagOf st currentFace,
      textureVariance := textureFlagOf currentFace cropPixels,
      depthEstimate := estimateDepth currentFace.landmarks },
   { previousFace := some currentFace,
     blinkHistory := blinkUpdate st currentFace,
     movementHistory := movementUpdate st currentFace })

/-- A whole capture session: evaluations folded from the reset state. -/
def runLiveness (inputs : List (FaceDetectionResult × List (ℝ × ℝ × ℝ))) :
    LivenessState :=
  inputs.foldl (fun st inp => (checkAdvancedLiveness st inp.1 inp.2).2)
    resetLivenessTracking

lemma blinkUpdate_length_le (st : LivenessState) (f : FaceDetectionResult)
    (h : st.blinkHistory.length ≤ 10) : (blinkUpdate st f).length ≤ 10 := by
  unfold blinkUpdate
  split
  · split
    · rename_i hlen
      simp only [List.length_tail, List.length_append, List.length_cons, List.length_nil]
      omega
    · rename_i hlen
      simp only [not_lt, List.length_append, List.length_cons, List.length_nil] at hlen
      simpa using hlen
  · exact h

lemma movementUpdate_length_le (st : LivenessState) (f : FaceDetectionResult)
    (h : st.movementHistory.length ≤ 20) : (movementUpdate st f).length ≤ 20 := by
  unfold movementUpdate
  split
  · split
    · split
      · simp only [List.length_tail, List.length_append, List.length_cons, List.length_nil]
        omega
      · rename_i hlen
        simp only [not_lt, List.length_append, List.length_cons, List.length_nil] at hlen
        simpa using hlen
    · exact h
  · exact h

lemma runLiveness_fold_bounds :
    ∀ (inputs : List (FaceDetectionResult × List (ℝ × ℝ × ℝ))) (st : LivenessState),
      st.blinkHistory.length ≤ 10 → st.movementHistory.length ≤ 20 →
      (inputs.foldl (fun s inp => (checkAdvancedLiveness s inp.1 inp.2).2) st).blinkHistory.length ≤ 10 ∧
      (inputs.foldl (fun s inp => (checkAdvancedLiveness s inp.1 inp.2).2) st).movementHistory.length ≤ 20 := by
  intro inputs
  induction inputs with
  | nil => intro st hb hm; exact ⟨hb, hm⟩
  | cons i t ih =>
    intro st hb hm
    simp only [List.foldl_cons]
    exact ih _ (blinkUpdate_length_le st i.1 hb) (movementUpdate_length_le st i.1 hm)

set_option maxRecDepth 4000 in
/-- C7: across any sequence of liveness evaluations started from the reset
state, the blink history never exceeds 10 entries and the movement history
never exceeds 20; when a full queue receives a new sample the oldest entry is
shifted out; and reset clears both queues and the previous-frame snapshot. -/
theorem livenessHistory_bounded :
    (∀ inputs : List (FaceDetectionResult × List (ℝ × ℝ × ℝ)),
      (runLiveness inputs).blinkHistory.length ≤ 10 ∧
      (runLiveness inputs).movementHistory.length ≤ 20)
    ∧ resetLivenessTracking.previousFace = none
    ∧ resetLivenessTracking.blinkHistory = ([] : List Bool)
    ∧ resetLivenessTracking.movementHistory = ([] : List ℝ)
    ∧ (∀ (st : LivenessState) (f : FaceDetectionResult),
        468 < f.landmarks.length → st.blinkHistory.length = 10 →
        blinkUpdate st f = st.blinkHistory.tail ++ [blinkSample f])
    ∧ (∀ (st : LivenessState) (f prev : FaceDetectionResult) (pb cb : BoundingBox),
        st.previousFace = some prev → prev.boundingBox = some pb →
        f.boundingBox = some cb → st.movementHistory.length = 20 →
        movementUpdate st f = st.movementHistory.tail ++ [movementDist pb cb]) := by
  refine ⟨?_, rfl, rfl, rfl, ?_, ?_⟩
  · intro inputs
    exact runLiveness_fold_bounds inputs resetLivenessTracking (by simp [resetLivenessTracking])
      (by simp [resetLivenessTracking])
  · intro st f hland hlen
    unfold blinkUpdate
    rw [if_pos hland, if_pos (by simp [hlen])]
    cases hbh : st.blinkHistory with
    | nil => rw [hbh] at hlen; simp at hlen
    | cons a t => simp
  · intro st f prev pb cb hprev hpb hcb hlen
    unfold movementUpdate
    split
    · rename_i prev' heq
      rw [hprev] at heq
      obtain rfl : prev = prev' := Option.some.inj heq
      split
      · rename_i pb' cb' hpb' hcb'
        rw [hpb] at hpb'
        obtain rfl : pb = pb' := Option.some.inj hpb'
        rw [hcb] at hcb'
        obtain rfl : cb = cb' := Option.some.inj hcb'
        rw [if_pos (by simp [hlen])]
        cases hmh : st.movementHistory with
        | nil => rw [hmh] at hlen; simp at hlen
        | cons a t => simp
      · rename_i hcontra
        exact (hcontra pb cb hpb hcb).elim
    · rename_i heq
      rw [hprev] at heq
      exact absurd heq (by simp)

/-- Concrete faces and boxes used to exercise the eviction branches. -/
def faceManyLandmarks : FaceDetectionResult :=
  { detected := true, embedding := [], landmarks := List.replicate 469 ((0 : ℝ), (0 : ℝ)),
    boundingBox := none, confidence := 0 }

/-- A degenerate bounding box at the origin. -/
def zeroBox : BoundingBox := { topLeft := ((0 : ℝ), (0 : ℝ)), bottomRight := ((0 : ℝ), (0 : ℝ)) }

/-- A face carrying a bounding box and no landmarks. -/
def faceWithBox : FaceDetectionResult :=
  { detected := true, embedding := [], landmarks := [],
    boundingBox := some zeroBox, confidence := 0 }

/-- Witness for C7: both eviction branches taken on full queues. -/
theorem livenessHistory_bounded_witness :
    blinkUpdate { previousFace := none, blinkHistory := List.replicate 10 false, movementHistory := [] } faceManyLandmarks
      = (List.replicate 10 false).tail ++ [blinkSample faceManyLandmarks]
    ∧ movementUpdate { previousFace := some faceWithBox, blinkHistory := [], movementHistory := List.replicate 20 (0 : ℝ) } faceWithBox
      = (List.replicate 20 (0 : ℝ)).tail ++ [movementDist zeroBox zeroBox] := by
  have h469 : 468 < faceManyLandmarks.landmarks.length := by
    show 468 < (List.replicate 469 ((0 : ℝ), (0 : ℝ))).length
    rw [List.length_replicate]
    norm_num
  have h10 : (List.replicate 10 false).length = 10 := by rw [List.length_replicate]
  have h20 : (List.replicate 20 (0 : ℝ)).length = 20 := by rw [List.length_replicate]
  constructor
  · exact livenessHistory_bounded.2.2.2.2.1 _ faceManyLandmarks h469 h10
  · exact livenessHistory_bounded.2.2.2.2.2 _ faceWithBox faceWithBox zeroBox zeroBox
      rfl rfl rfl h20

/-- C6: the liveness score equals the weighted sum
`0.3*blink + 0.3*movement + 0.2*texture + 0.2*depth`, `isLive` holds exactly
when the score reaches 0.5, and whenever both the blink check and the
movement check are false the subject is never reported live (texture and
depth alone reach at most 0.4). -/
theorem checkAdvancedLiveness_score_spec (st : LivenessState)
    (f : FaceDetectionResult) (px : List (ℝ × ℝ × ℝ)) :
    ((checkAdvancedLiveness st f px).1.score =
        (if (checkAdvancedLiveness st f px).1.checks.blinkDetected then (0.3 : ℝ) else 0)
      + (if (checkAdvancedLiveness st f px).1.checks.headMovement then (0.3 : ℝ) else 0)
      + (if (checkAdvancedLiveness st f px).1.checks.textureVariance then (0.2 : ℝ) else 0)
      + (if (checkAdvancedLiveness st f px).1.checks.depthEstimate then (0.2 : ℝ) else 0))
    ∧ ((checkAdvancedLiveness st f px).1.isLive = true ↔
        (0.5 : ℝ) ≤ (checkAdvancedLiveness st f px).1.score)
    ∧ ((checkAdvancedLiveness st f px).1.checks.blinkDetected = false →
       (checkAdvancedLiveness st f px).1.checks.headMovement = false →
       (checkAdvancedLiveness st f px).1.isLive = false) := by
  have hgen : ∀ c : LivenessChecks,
      (mkLivenessResult c).score =
        (if c.blinkDetected then (0.3 : ℝ) else 0) + (if c.headMovement then (0.3 : ℝ) else 0) +
        (if c.textureVariance then (0.2 : ℝ) else 0) + (if c.depthEstimate then (0.2 : ℝ) else 0)
      ∧ ((mkLivenessResult c).isLive = true ↔ (0.5 : ℝ) ≤ (mkLivenessResult c).score)
      ∧ (c.blinkDetected = false → c.headMovement = false →
          (mkLivenessResult c).isLive = false) := by
    intro c
    refine ⟨rfl, by simp [mkLivenessResult], ?_⟩
    intro hb hm
    have hle : livenessScore c ≤ 0.4 := by
      unfold livenessScore
      rw [hb, hm]
      cases hc : c.textureVariance <;> cases hd : c.depthEstimate <;> norm_num
    simp only [mkLivenessResult, decide_eq_false_iff_not, not_le]
    linarith
  exact hgen { blinkDetected := blinkFlagOf st f, headMovement := movementFlagOf st f, textureVariance := textureFlagOf f px, depthEstimate := estimateDepth f.landmarks }

/-- Witness for C6: with no previous face, no landmarks, no bounding box the
blink and movement checks are false and the subject is reported not live. -/
theorem checkAdvancedLiveness_score_spec_witness :
    (checkAdvancedLiveness resetLivenessTracking
      { detected := true, embedding := [], landmarks := [], boundingBox := none,
        confidence := 0 } []).1.isLive = false :=
  (checkAdvancedLiveness_score_spec resetLivenessTracking
    { detected := true, embedding := [], landmarks := [], boundingBox := none,
      confidence := 0 } []).2.2 rfl rfl

/-- One enrollment capture tick input: the extracted embedding together with
the liveness verdict and detection confidence used by the acceptance test. -/
structure CaptureSample where
  embedding : List ℝ
  isLive : Bool
  confidence : ℝ

/-- Accumulator state of the enrollment component: `capturedFrames` and
`allEmbeddings`. -/
structure EnrollState where
  capturedFrames : ℕ
  allEmbeddings : List (List ℝ)

/-- The target capture count of the advanced enrollment component
(`targetFrames = 15`). -/
def targetFrames : ℕ := 15

/-- One tick of `captureFrame` in the advanced enrollment component: returns
unchanged once the target is reached, accepts a sample iff
`livenessResult.isLive && result.confidence > 0.8`, appending the embedding
and bumping the counter. -/
def captureStep (st : EnrollState) (s : CaptureSample) : EnrollState :=
  if targetFrames ≤ st.capturedFrames then st
  else if s.isLive = true ∧ (0.8 : ℝ) < s.confidence then
    { capturedFrames := st.capturedFrames + 1,
      allEmbeddings := st.allEmbeddings ++ [s.embedding] }
  else st

/-- `averageEmbeddings` from the advanced enrollment component: a zero
accumulator sized by the length of the first embedding, summed component-wise over all
embeddings and divided by their count.  No re-normalization is applied. -/
def averageEmbeddings (embeddings : List (List ℝ)) : List ℝ :=
  match embeddings with
  | [] => []
  | e0 :: _ =>
    (List.range e0.length).map (fun i =>
      (embeddings.map (fun e => e.getD i 0)).sum / (embeddings.length : ℝ))

/-- A capture session folded from a fresh state. -/
def runEnrollment (samples : List CaptureSample) : EnrollState :=
  samples.foldl captureStep { capturedFrames := 0, allEmbeddings := [] }

/-- `completeEnrollment`: once the target count is reached the accumulated
embeddings are reduced by `averageEmbeddings` and stored as the template. -/
def enrollTemplate (samples : List CaptureSample) : Option (List ℝ) :=
  if (runEnrollment samples).capturedFrames = targetFrames then
    some (averageEmbeddings (runEnrollment samples).allEmbeddings)
  else none

lemma captureStep_accept (st : EnrollState) (s : CaptureSample)
    (hlt : st.capturedFrames < targetFrames)
    (hacc : s.isLive = true ∧ (0.8 : ℝ) < s.confidence) :
    captureStep st s =
      { capturedFrames := st.capturedFrames + 1,
        allEmbeddings := st.allEmbeddings ++ [s.embedding] } := by
  unfold captureStep
  rw [if_neg (not_le.mpr hlt), if_pos hacc]

lemma runEnroll_replicate : ∀ (k j : ℕ) (l : List (List ℝ)) (s : CaptureSample),
    s.isLive = true → (0.8 : ℝ) < s.confidence → j + k ≤ targetFrames →
    (List.replicate k s).foldl captureStep { capturedFrames := j, allEmbeddings := l }
      = { capturedFrames := j + k, allEmbeddings := l ++ List.replicate k s.embedding } := by
  intro k
  induction k with
  | zero => intro j l s _ _ _; simp
  | succ n ih =>
    intro j l s hl hc hle
    rw [List.replicate_succ, List.foldl_cons]
    rw [captureStep_accept _ s (by show j < targetFrames; omega) ⟨hl, hc⟩]
    rw [ih (j + 1) (l ++ [s.embedding]) s hl hc (by omega)]
    simp only [EnrollState.mk.injEq]
    exact ⟨by omega, by simp [List.replicate_succ]⟩

lemma averageEmbeddings_replicate (n : ℕ) (e : List ℝ) (hn : n ≠ 0) :
    averageEmbeddings (List.replicate n e) = e := by
  cases n with
  | zero => exact absurd rfl hn
  | succ m =>
    have hrepl : List.replicate (m + 1) e = e :: List.replicate m e :=
      List.replicate_succ e m
    rw [hrepl]
    show (List.range e.length).map (fun i =>
      ((e :: List.replicate m e).map (fun l => l.getD i 0)).sum /
        (((e :: List.replicate m e).length : ℕ) : ℝ)) = e
    apply List.ext_getElem
    · simp
    · intro i h1 h2
      simp only [List.getElem_map, List.getElem_range]
      rw [List.map_cons, List.map_replicate, List.sum_cons, List.sum_replicate]
      rw [List.length_cons, List.length_replicate]
      have h2' : i < e.length := by simpa using h2
      rw [List.getD_eq_getElem e 0 h2', nsmul_eq_mul]
      have hm : ((m : ℝ) + 1) ≠ 0 := by positivity
      push_cast
      field_simp
      ring

/-- C5: the enrollment component accumulates the accepted embeddings until
the target capture count is reached and reduces them by component-wise
arithmetic mean; in particular, a stream of `targetFrames` identical
accepted samples stores exactly that embedding as the template (no
re-normalization after averaging). -/
theorem enrollTemplate_identical (e : List ℝ) (c : ℝ) (hc : (0.8 : ℝ) < c) :
    enrollTemplate (List.replicate targetFrames
        { embedding := e, isLive := true, confidence := c }) = some e
    ∧ (runEnrollment (List.replicate targetFrames
        { embedding := e, isLive := true, confidence := c })).allEmbeddings
      = List.replicate targetFrames e := by
  have hrun := runEnroll_replicate targetFrames 0 []
    { embedding := e, isLive := true, confidence := c } rfl hc (by omega)
  have hrun' : runEnrollment (List.replicate targetFrames
      { embedding := e, isLive := true, confidence := c })
      = { capturedFrames := targetFrames, allEmbeddings := List.replicate targetFrames e } := by
    unfold runEnrollment
    rw [hrun]
    simp
  constructor
  · unfold enrollTemplate
    rw [hrun']
    rw [if_pos rfl]
    rw [averageEmbeddings_replicate targetFrames e (by norm_num [targetFrames])]
  · rw [hrun']

/-- Witness for C5 at a concrete embedding and confidence 1. -/
theorem enrollTemplate_identical_witness :
    enrollTemplate (List.replicate targetFrames
        { embedding := [(1 : ℝ), 2], isLive := true, confidence := 1 })
      = some [(1 : ℝ), 2] :=
  (enrollTemplate_identical [(1 : ℝ), 2] 1 (by norm_num)).1

/-- A row of `attendance_records` as used by `markAttendance` in Scan.tsx. -/
structure AttendanceRecord where
  user_id : String
  timestamp : ℤ
  confidence : ℝ
  device_info : String

/-- Outcome of the attendance decision: a fresh record was inserted, or the
informational already-recorded result. -/
inductive MarkOutcome where
  | recorded
  | alreadyRecorded

/-- The dedup lookup of `markAttendance` (Scan.tsx lines 196-204): the most
recent record for this user with `timestamp >= today` (start of the local
calendar day). -/
def findExistingToday (store : List AttendanceRecord) (userId : String)
    (todayStart : ℤ) : Option AttendanceRecord :=
  store.find? (fun r => r.user_id == userId && decide (todayStart ≤ r.timestamp))

/-- `markAttendance` (Scan.tsx lines 193-233): when a record for the user
already exists within the current day, report already-recorded and insert
nothing; otherwise insert a new record carrying the match confidence and the
device descriptor. -/
def markAttendance (store : List AttendanceRecord) (userId : String)
    (confidence : ℝ) (todayStart now : ℤ) (device : String) :
    List AttendanceRecord × MarkOutcome :=
  match findExistingToday store userId todayStart with
  | some _ => (store, MarkOutcome.alreadyRecorded)
  | none =>
    (store ++ [{ user_id := userId, timestamp := now, confidence := confidence,
                 device_info := device }],
     MarkOutcome.recorded)

/-- C8: when no attendance event exists yet for the user on the current day,
the first call records exactly one event and the second call within the same
day returns the informational already-recorded outcome, inserts nothing, and
leaves exactly one stored event for that user and day. -/
theorem markAttendance_once_per_day (store : List AttendanceRecord)
    (userId : String) (c1 c2 : ℝ) (todayStart now1 now2 : ℤ) (d1 d2 : String)
    (hnone : findExistingToday store userId todayStart = none)
    (hnow : todayStart ≤ now1) :
    (markAttendance store userId c1 todayStart now1 d1).2 = MarkOutcome.recorded
    ∧ (markAttendance (markAttendance store userId c1 todayStart now1 d1).1
        userId c2 todayStart now2 d2).2 = MarkOutcome.alreadyRecorded
    ∧ (markAttendance (markAttendance store userId c1 todayStart now1 d1).1
        userId c2 todayStart now2 d2).1
      = (markAttendance store userId c1 todayStart now1 d1).1
    ∧ (markAttendance (markAttendance store userId c1 todayStart now1 d1).1
        userId c2 todayStart now2 d2).1.countP
        (fun r => r.user_id == userId && decide (todayStart ≤ r.timestamp)) = 1 := by
  have h1 : markAttendance store userId c1 todayStart now1 d1 =
      (store ++ [{ user_id := userId, timestamp := now1, confidence := c1, device_info := d1 }],
        MarkOutcome.recorded) := by
    unfold markAttendance
    rw [hnone]
  have hpred : (fun r : AttendanceRecord =>
      r.user_id == userId && decide (todayStart ≤ r.timestamp))
      { user_id := userId, timestamp := now1, confidence := c1, device_info := d1 }
      = true := by
    simp [hnow]
  have hfind2 : findExistingToday
      (store ++ [{ user_id := userId, timestamp := now1, confidence := c1, device_info := d1 }])
      userId todayStart
      = some { user_id := userId, timestamp := now1, confidence := c1, device_info := d1 } := by
    unfold findExistingToday at hnone ⊢
    rw [List.find?_append, hnone]
    simp only [List.find?, Option.none_orElse]
    rw [decide_eq_true hnow]
    simp
  have h2 : markAttendance
      (store ++ [{ user_id := userId, timestamp := now1, confidence := c1, device_info := d1 }])
      userId c2 todayStart now2 d2
      = (store ++ [{ user_id := userId, timestamp := now1, confidence := c1, device_info := d1 }],
        MarkOutcome.alreadyRecorded) := by
    unfold markAttendance
    rw [hfind2]
  have hcount0 : store.countP (fun r => r.user_id == userId &&
      decide (todayStart ≤ r.timestamp)) = 0 := by
    rw [List.countP_eq_zero]
    intro a ha
    have := List.find?_eq_none.mp hnone a ha
    simpa using this
  refine ⟨by rw [h1], ?_, ?_, ?_⟩
  · rw [h1]
    simp only []
    rw [h2]
  · rw [h1]
    simp only []
    rw [h2]
  · rw [h1]
    simp only []
    rw [h2]
    simp only []
    rw [List.countP_append, hcount0, List.countP_cons]
    simp only [hpred]
    simp [hnow]

/-- Witness for C8 starting from an empty store. -/
theorem markAttendance_once_per_day_witness :
    (markAttendance (markAttendance [] ("alice") 1 0 5 ("d1")).1
      ("alice") 1 0 7 ("d2")).2 = MarkOutcome.alreadyRecorded
    ∧ (markAttendance (markAttendance [] ("alice") 1 0 5 ("d1")).1
        ("alice") 1 0 7 ("d2")).1.countP
        (fun r => r.user_id == ("alice") && decide ((0 : ℤ) ≤ r.timestamp)) = 1 := by
  have h := markAttendance_once_per_day [] ("alice") 1 1 0 5 7 ("d1") ("d2")
    rfl (by decide)
  exact ⟨h.2.1, h.2.2.2⟩

/-- The normalization step of `extractAdvancedEmbedding`
(advanced-face-detection.ts lines 182-187): each component is divided by
`magnitude || 1`, so the divisor falls back to 1 when the magnitude is 0. -/
def normalizeEmbedding (e : List ℝ) : List ℝ :=
  e.map (fun val => val / (if magnitude e = 0 then 1 else magnitude e))

/-- JavaScript division whose result can be non-finite: dividing by zero
yields NaN or an infinity, modelled as `none`. -/
def jsDiv (x y : ℝ) : Option ℝ := if y = 0 then none else some (x / y)

/-- Grayscale sum of one pixel region of `extractFaceEmbedding`
(face-detection.ts lines 72-79): the loop runs from `start` to `stop` in
steps of 4 RGBA bytes and adds `(r+g+b)/3` per pixel. -/
def regionSum (pixels : List ℝ) (start stop : ℕ) : ℝ :=
  ((List.range ((stop - start + 3) / 4)).map (fun k =>
    (pixels.getD (start + 4 * k) 0 + pixels.getD (start + 4 * k + 1) 0 +
     pixels.getD (start + 4 * k + 2) 0) / 3)).sum

/-- The raw 128-entry region-average embedding of `extractFaceEmbedding`
(face-detection.ts lines 66-82), `regionSize = floor(len / 128 / 4)`. -/
def extractFaceEmbeddingRaw (pixels : List ℝ) : List ℝ :=
  (List.range 128).map (fun i =>
    regionSum pixels (i * (pixels.length / 128 / 4) * 4)
      (min (i * (pixels.length / 128 / 4) * 4 + (pixels.length / 128 / 4) * 4)
        pixels.length) /
    ((pixels.length / 128 / 4 : ℕ) : ℝ))

/-- `extractFaceEmbedding` (face-detection.ts lines 39-87): the raw embedding
is divided component-wise by its magnitude with no zero guard (line 86), so a
component is `none` exactly when the division is non-finite. -/
def extractFaceEmbedding (pixels : List ℝ) : List (Option ℝ) :=
  (extractFaceEmbeddingRaw pixels).map
    (fun val => jsDiv val (magnitude (extractFaceEmbeddingRaw pixels)))

lemma getD_zero_buffer (n i : ℕ) : (List.replicate n (0 : ℝ)).getD i 0 = 0 := by
  rcases lt_or_ge i n with h | h
  · rw [List.getD_eq_getElem _ _ (by simpa using h)]
    simp
  · rw [List.getD_eq_default]
    simpa using h

lemma regionSum_zero_buffer (start stop : ℕ) :
    regionSum (List.replicate 512 (0 : ℝ)) start stop = 0 := by
  unfold regionSum
  apply List.sum_eq_zero
  intro x hx
  simp only [List.mem_map] at hx
  obtain ⟨k, _, rfl⟩ := hx
  rw [getD_zero_buffer, getD_zero_buffer, getD_zero_buffer]
  norm_num

lemma raw_zero_buffer :
    extractFaceEmbeddingRaw (List.replicate 512 (0 : ℝ)) = List.replicate 128 (0 : ℝ) := by
  unfold extractFaceEmbeddingRaw
  refine List.eq_replicate_iff.mpr ⟨by rw [List.length_map, List.length_range], ?_⟩
  intro b hb
  simp only [List.mem_map, List.mem_range] at hb
  obtain ⟨i, _, rfl⟩ := hb
  rw [regionSum_zero_buffer]
  exact zero_div _

lemma sumSq_eq_zero_all (l : List ℝ) (h : sumSq l = 0) : ∀ x ∈ l, x = 0 := by
  induction l with
  | nil => simp
  | cons a t ih =>
    simp only [sumSq] at h
    have ha2 : 0 ≤ a * a := mul_self_nonneg a
    have ht := sumSq_nonneg t
    have ha : a * a = 0 := by linarith
    have hts : sumSq t = 0 := by linarith
    intro x hx
    rcases List.mem_cons.mp hx with rfl | hx'
    · exact mul_self_eq_zero.mp ha
    · exact ih hts x hx'

lemma magnitude_replicate_zero (n : ℕ) : magnitude (List.replicate n (0 : ℝ)) = 0 := by
  rw [magnitude_eq_zero_iff]
  induction n with
  | zero => simp [sumSq]
  | succ m ih =>
    rw [List.replicate_succ]
    simp [sumSq, ih]

lemma sumSq_map_div (l : List ℝ) (c : ℝ) :
    sumSq (l.map (fun x => x / c)) = sumSq l / (c * c) := by
  induction l with
  | nil => simp [sumSq]
  | cons a t ih =>
    simp only [List.map_cons, sumSq, ih]
    rw [div_mul_div_comm, div_add_div_same]

lemma magnitude_normalize (e : List ℝ) (h : magnitude e ≠ 0) :
    magnitude (e.map (fun x => x / magnitude e)) = 1 := by
  have hs0 : sumSq e ≠ 0 := fun hh => h ((magnitude_eq_zero_iff e).mpr hh)
  rw [magnitude, sumSq_map_div,
    show magnitude e * magnitude e = sumSq e from Real.mul_self_sqrt (sumSq_nonneg e),
    div_self hs0, Real.sqrt_one]

/-- C9 (amended): the normalization of the advanced extractor divides by
`magnitude || 1`, so a nonzero-magnitude raw vector is scaled to unit length
and a zero-magnitude raw vector (necessarily the all-zero vector) is returned
unchanged with no non-finite component; the basic extractor in
face-detection.ts divides by the magnitude unguarded, which is finite
component-wise only when the magnitude is nonzero. -/
theorem normalizeEmbedding_amended (e : List ℝ) :
    (magnitude e ≠ 0 → normalizeEmbedding e = e.map (fun val => val / magnitude e)
        ∧ magnitude (normalizeEmbedding e) = 1)
    ∧ (magnitude e = 0 → normalizeEmbedding e = e ∧ ∀ x ∈ e, x = 0)
    ∧ (magnitude e ≠ 0 →
        e.map (fun val => jsDiv val (magnitude e))
          = e.map (fun val => some (val / magnitude e))) := by
  refine ⟨?_, ?_, ?_⟩
  · intro h
    have h1 : normalizeEmbedding e = e.map (fun val => val / magnitude e) := by
      unfold normalizeEmbedding
      rw [if_neg h]
    exact ⟨h1, by rw [h1]; exact magnitude_normalize e h⟩
  · intro h
    refine ⟨?_, sumSq_eq_zero_all e ((magnitude_eq_zero_iff e).mp h)⟩
    unfold normalizeEmbedding
    rw [if_pos h]
    simp
  · intro h
    simp only [jsDiv, if_neg h]

/-- Witness for C9 (amended) at a unit vector. -/
theorem normalizeEmbedding_amended_witness :
    magnitude (normalizeEmbedding [(1 : ℝ), 0]) = 1 := by
  have hne : magnitude [(1 : ℝ), 0] ≠ 0 := by
    rw [magnitude_pair_10]
    norm_num
  exact ((normalizeEmbedding_amended [(1 : ℝ), 0]).1 hne).2

/-- C9 counterexample: on an all-zero 512-byte RGBA buffer the basic
extractor produces the zero raw embedding of length 128, whose magnitude
is 0, so the unguarded division by the magnitude makes every component
non-finite; the result is not the zero vector the claim requires. -/
theorem extractFaceEmbedding_zero_buffer_cex :
    extractFaceEmbedding (List.replicate 512 (0 : ℝ))
      = List.replicate 128 (none : Option ℝ)
    ∧ extractFaceEmbedding (List.replicate 512 (0 : ℝ))
      ≠ List.replicate 128 (some (0 : ℝ)) := by
  have h1 : extractFaceEmbedding (List.replicate 512 (0 : ℝ))
      = List.replicate 128 (none : Option ℝ) := by
    unfold extractFaceEmbedding
    rw [raw_zero_buffer, magnitude_replicate_zero]
    simp [jsDiv]
  refine ⟨h1, ?_⟩
  rw [h1]
  intro hcontra
  rw [show (128 : ℕ) = 127 + 1 from rfl, List.replicate_succ, List.replicate_succ]
    at hcontra
  simp at hcontra

end

end FaceScanPro
